import Mathlib

/-!
# kobuki_node: the ROS wrapper around the kobuki driver

A shallow embedding of `kobuki_node/include/kobuki_node/kobuki_node.hpp`.

* A member function becomes a function from the node to the node after the
  call, paired with the list of externally visible effects it performed, in
  program order (calls on the driver, log records, bus publishes).
* The `Kobuki` driver class lives in `kobuki_driver/kobuki.hpp`; its state is a
  type parameter `K` and its `run()` and `stop()` methods are the two fields of
  `KobukiDriver K`.
* `double` values are carried as exact rationals.
* The `ros::Publisher`, `ros::Subscriber`, `ecl::Slot` and `ecl::Signal`
  members are communication handles; they hold no data that a handler of the
  header reads or writes and are left out of the record.
-/

namespace kobuki

/-! ## Data model -/

/-- The message `std_msgs::String`. -/
structure StringMsg where
  data : String
  deriving DecidableEq, Repr

/-- The handle `std_msgs::StringConstPtr`: a shared pointer, possibly null. -/
abbrev StringConstPtr := Option StringMsg

/-- The class `ecl::Pose2D<double>`, read through `x()`, `y()`, `heading()`. -/
structure Pose2D where
  x : ℚ
  y : ℚ
  heading : ℚ
  deriving DecidableEq, Repr

/-- The message `geometry_msgs::Quaternion`. -/
structure Quaternion where
  x : ℚ
  y : ℚ
  z : ℚ
  w : ℚ
  deriving DecidableEq, Repr

/-- The message `geometry_msgs::TransformStamped`. -/
structure TransformStamped where
  stamp : ℚ
  frame_id : String
  child_frame_id : String
  tx : ℚ
  ty : ℚ
  tz : ℚ
  rotation : Quaternion
  deriving DecidableEq, Repr

/-- The message `nav_msgs::Odometry` (planar part). -/
structure Odometry where
  stamp : ℚ
  frame_id : String
  child_frame_id : String
  px : ℚ
  py : ℚ
  pz : ℚ
  orientation : Quaternion
  linear : ℚ
  angular : ℚ
  deriving DecidableEq, Repr

/-- The message `sensor_msgs::JointState`. -/
structure JointState where
  stamp : ℚ
  name : List String
  position : List ℚ
  velocity : List ℚ
  deriving DecidableEq, Repr

/-- The four rosconsole severities used by the header. -/
inductive Level where
  | debug
  | info
  | warn
  | error
  deriving DecidableEq, Repr

/-- An externally visible effect of a member function. -/
inductive Effect where
  /-- The call `kobuki.run()`. -/
  | run
  /-- The call `kobuki.stop()`. -/
  | stop
  /-- One record written by `ROS_<LEVEL>_STREAM`. -/
  | log (level : Level) (text : String)
  /-- One combined wheel actuation call on the driver. -/
  | actuate (left right : ℚ)
  /-- One publish on the joint-state topic. -/
  | publishJointState (js : JointState)
  /-- One publish on the odometry topic. -/
  | publishOdometry (o : Odometry)
  /-- One `sendTransform` on `odom_broadcaster`. -/
  | sendTransform (t : TransformStamped)
  deriving DecidableEq, Repr

/-- The two methods of `Kobuki` that the header calls. -/
structure KobukiDriver (K : Type) where
  run : K → K
  stop : K → K

/-- The data members of `class KobukiNode` (header lines 63 to 98). -/
structure KobukiNode (K : Type) where
  kobuki : K
  name : String
  odom_trans : TransformStamped
  odom : Odometry
  pose : Pose2D
  wheel_left_name : String
  wheel_right_name : String
  odom_frame : String
  base_frame : String
  publish_tf : Bool
  joint_states : JointState

/-! ## Member functions defined in the header -/

variable {K : Type}

/-- The handler `rosDebug` (header lines 125 to 128). -/
def rosDebug (s : KobukiNode K) (msg : String) : KobukiNode K × List Effect :=
  (s, [Effect.log Level.debug msg])

/-- The handler `rosInfo` (header lines 129 to 132). -/
def rosInfo (s : KobukiNode K) (msg : String) : KobukiNode K × List Effect :=
  (s, [Effect.log Level.info msg])

/-- The handler `rosWarn` (header lines 133 to 136). -/
def rosWarn (s : KobukiNode K) (msg : String) : KobukiNode K × List Effect :=
  (s, [Effect.log Level.warn msg])

/-- The handler `rosError` (header lines 137 to 140). -/
def rosError (s : KobukiNode K) (msg : String) : KobukiNode K × List Effect :=
  (s, [Effect.log Level.error msg])

/-- The handler `enable` (header lines 142 to 146): `kobuki.run()` and then
one info record; the argument `msg` is not read. -/
def enable (drv : KobukiDriver K) (s : KobukiNode K) (_msg : StringConstPtr) :
    KobukiNode K × List Effect :=
  ({ s with kobuki := drv.run s.kobuki },
    [Effect.run, Effect.log Level.info "kobuki enabled."])

/-- The handler `disable` (header lines 149 to 153): `kobuki.stop()` and then
one info record; the argument `msg` is not read. -/
def disable (drv : KobukiDriver K) (s : KobukiNode K) (_msg : StringConstPtr) :
    KobukiNode K × List Effect :=
  ({ s with kobuki := drv.stop s.kobuki },
    [Effect.stop, Effect.log Level.info "kobuki disable."])

/-- One invocation of a member function that the header defines. -/
inductive Op where
  | enable (msg : StringConstPtr)
  | disable (msg : StringConstPtr)
  | rosDebug (msg : String)
  | rosInfo (msg : String)
  | rosWarn (msg : String)
  | rosError (msg : String)
  deriving DecidableEq, Repr

/-- Dispatch of one invocation to its member function. -/
def step (drv : KobukiDriver K) (s : KobukiNode K) : Op → KobukiNode K × List Effect
  | Op.enable msg => enable drv s msg
  | Op.disable msg => disable drv s msg
  | Op.rosDebug msg => rosDebug s msg
  | Op.rosInfo msg => rosInfo s msg
  | Op.rosWarn msg => rosWarn s msg
  | Op.rosError msg => rosError s msg

/-- A sequence of invocations, run left to right; the effects are concatenated
in program order. -/
def runOps (drv : KobukiDriver K) (s : KobukiNode K) : List Op → KobukiNode K × List Effect
  | [] => (s, [])
  | op :: ops =>
    let r := step drv s op
    let r' := runOps drv r.1 ops
    (r'.1, r.2 ++ r'.2)

/-! ## Observations on an effect trace -/

/-- Number of `kobuki.run()` calls in a trace. -/
def countRun (es : List Effect) : Nat :=
  (es.filter (fun e => decide (e = Effect.run))).length

/-- Number of `kobuki.stop()` calls in a trace. -/
def countStop (es : List Effect) : Nat :=
  (es.filter (fun e => decide (e = Effect.stop))).length

/-- The texts written on the log channel of severity `l`, in order. -/
def channel (l : Level) : List Effect → List String
  | [] => []
  | Effect.log l' text :: es => if l' = l then text :: channel l es else channel l es
  | _ :: es => channel l es

/-- Number of transforms sent through `odom_broadcaster` in a trace. -/
def transformsSent : List Effect → Nat
  | [] => 0
  | Effect.sendTransform _ :: es => transformsSent es + 1
  | _ :: es => transformsSent es

/-! ## Member functions declared in the header, bodies elsewhere -/

/-- The member functions that the header only declares (`init`, the
`publish...` slots, the `subscribe...` callbacks) have their bodies outside
`kobuki_node.hpp`.  A call of one of them is identified by a value of `D`; its
body is a parameter `body d`. -/
inductive Call (D : Type) where
  | defined (op : Op)
  | declared (d : D)

/-- One call of any member function. -/
def call {D : Type} (drv : KobukiDriver K)
    (body : D → KobukiNode K → KobukiNode K × List Effect) (s : KobukiNode K) :
    Call D → KobukiNode K × List Effect
  | Call.defined op => step drv s op
  | Call.declared d => body d s

/-- A sequence of calls of member functions, run left to right. -/
def runCalls {D : Type} (drv : KobukiDriver K)
    (body : D → KobukiNode K → KobukiNode K × List Effect) (s : KobukiNode K) :
    List (Call D) → KobukiNode K × List Effect
  | [] => (s, [])
  | c :: cs =>
    let r := call drv body s c
    let r' := runCalls drv body r.1 cs
    (r'.1, r.2 ++ r'.2)

/-- The language rule for the two `const std::string` members: a member
function cannot assign to them. -/
def RespectsConst {D : Type} (body : D → KobukiNode K → KobukiNode K × List Effect) : Prop :=
  ∀ d s, (body d s).1.wheel_left_name = s.wheel_left_name ∧
    (body d s).1.wheel_right_name = s.wheel_right_name

/-! ## Configuration surface and numeric helpers -/

/-- Modelled from the spec: the two kinematic configuration constants of §6
(wheel radius, wheel separation); the header has no member for them. -/
structure Kinematics where
  wheel_radius : ℚ
  wheel_separation : ℚ
  deriving DecidableEq, Repr

/-- The libm functions `cos` and `sin`, taken as parameters. -/
structure Trig where
  cos : ℚ → ℚ
  sin : ℚ → ℚ

/-- Modelled from the spec: the heading-only quaternion of §4.4 (no roll, no
pitch); the body of the conversion is not in the header. -/
def headingQuaternion (trig : Trig) (heading : ℚ) : Quaternion :=
  { x := 0, y := 0, z := trig.sin (heading / 2), w := trig.cos (heading / 2) }

/-! ## Velocity command (§4.5) -/

/-- The planar part of `geometry_msgs::Twist`: `linear.x` and `angular.z`. -/
structure Twist where
  linear : ℚ
  angular : ℚ
  deriving DecidableEq, Repr

/-- Modelled from the spec: the inverse kinematics of §4.5, the body of
`subscribeVelocityCommand` being absent from the header.  A body velocity
`(linear, angular)` becomes the pair `(left, right)` of wheel target
velocities, with the wheel radius and wheel separation of §4.3. -/
def wheelTargets (kin : Kinematics) (linear angular : ℚ) : ℚ × ℚ :=
  ((linear - angular * kin.wheel_separation / 2) / kin.wheel_radius,
   (linear + angular * kin.wheel_separation / 2) / kin.wheel_radius)

/-- Modelled from the spec: `subscribeVelocityCommand` (declared at header line
119, body absent).  §4.5: the command is converted to per-wheel target
velocities and forwarded as one combined actuation call; a malformed (null)
message is logged at warn level and dropped. -/
def subscribeVelocityCommand (kin : Kinematics) (s : KobukiNode K) :
    Option Twist → KobukiNode K × List Effect
  | none => (s, [Effect.log Level.warn "malformed velocity command dropped"])
  | some msg =>
    let t := wheelTargets kin msg.linear msg.angular
    (s, [Effect.actuate t.1 t.2])

/-! ## Initialization (§4.6) -/

/-- Modelled from the spec: the node state machine of §4.6,
Constructed, Initialized (publishing and subscribing), Destroyed. -/
inductive Lifecycle where
  | constructed
  | initialized
  | destroyed
  deriving DecidableEq, Repr

/-- Modelled from the spec: what §4.6 needs to guard `init()` against
re-entry.  The header declares no data member that records a call of `init()`;
this record stands beside `KobukiNode`. -/
structure InitGuard where
  phase : Lifecycle
  init_called : Bool
  deriving DecidableEq, Repr

/-- The guard of a freshly constructed node. -/
def InitGuard.fresh : InitGuard :=
  { phase := Lifecycle.constructed, init_called := false }

/-- Modelled from the spec: `init()` (declared at header line 51, body
absent).  §4.6: a second call returns failure.  §7 (a): when the hardware
abstraction fails to open, `init()` returns failure and the node does not go on
to subscribe and publish.  `hw_opens` is the outcome of opening the hardware. -/
def init (g : InitGuard) (hw_opens : Bool) : Bool × InitGuard :=
  if g.init_called then (false, g)
  else if hw_opens then (true, { phase := Lifecycle.initialized, init_called := true })
  else (false, { g with init_called := true })

/-! ## Wheel-state path (§4.3, §4.4) -/

/-- Modelled from the spec: the payload of a wheel-state event (glossary:
updated left and right wheel encoder readings, with the wheel-rate sample of
§3), stamped with its arrival time. -/
structure WheelState where
  stamp : ℚ
  left : ℚ
  right : ℚ
  left_rate : ℚ
  right_rate : ℚ
  deriving DecidableEq, Repr

/-- Modelled from the spec: the integrator state of §4.3 besides the pose, the
last-known per-wheel angular position and the time of the previous event. -/
structure WheelMemory where
  stamp : ℚ
  left : ℚ
  right : ℚ
  deriving DecidableEq, Repr

/-- Modelled from the spec: step 1 of §4.3, the per-wheel angular displacement
since the previous event; the first event yields zero displacement. -/
def displacement (last : Option WheelMemory) (ev : WheelState) : ℚ × ℚ :=
  match last with
  | none => (0, 0)
  | some m => (ev.left - m.left, ev.right - m.right)

/-- Modelled from the spec: step 2 of §4.3, the displacement pair converted to
(linear displacement, angular displacement). -/
def bodyDisplacement (kin : Kinematics) (d : ℚ × ℚ) : ℚ × ℚ :=
  (kin.wheel_radius * (d.1 + d.2) / 2,
   kin.wheel_radius * (d.2 - d.1) / kin.wheel_separation)

/-- Modelled from the spec: step 3 of §4.3, the linear displacement rotated by
the previous heading, the heading advanced by the angular displacement. -/
def integrate (trig : Trig) (pose : Pose2D) (b : ℚ × ℚ) : Pose2D :=
  { x := pose.x + b.1 * trig.cos pose.heading,
    y := pose.y + b.1 * trig.sin pose.heading,
    heading := pose.heading + b.2 }

/-- Modelled from the spec: step 4 of §4.3, displacement over elapsed time, and
zero when there is no previous event or the elapsed time is zero or
negative. -/
def velocityEstimate (last : Option WheelMemory) (ev : WheelState) (b : ℚ × ℚ) : ℚ × ℚ :=
  match last with
  | none => (0, 0)
  | some m =>
    if ev.stamp - m.stamp ≤ 0 then (0, 0)
    else (b.1 / (ev.stamp - m.stamp), b.2 / (ev.stamp - m.stamp))

/-- Modelled from the spec: `publishTransform` (declared at header line 60,
body absent).  §4.4: nothing is published when `publish_tf` is off; otherwise
one transform from `odom_frame` to `base_frame`, translation `(x, y, 0)`,
rotation the heading-only quaternion, stamped with the event arrival time. -/
def publishTransform (s : KobukiNode K) (odom_quat : Quaternion) (stamp : ℚ) :
    KobukiNode K × List Effect :=
  if s.publish_tf then
    let t : TransformStamped :=
      { stamp := stamp, frame_id := s.odom_frame, child_frame_id := s.base_frame,
        tx := s.pose.x, ty := s.pose.y, tz := 0, rotation := odom_quat }
    ({ s with odom_trans := t }, [Effect.sendTransform t])
  else (s, [])

/-- Modelled from the spec: `publishOdom` (declared at header line 61, body
absent): one odometry message carrying the pose and the velocity estimate,
with the same frames and stamp as the transform. -/
def publishOdom (s : KobukiNode K) (odom_quat : Quaternion) (rates : ℚ × ℚ) (stamp : ℚ) :
    KobukiNode K × List Effect :=
  let o : Odometry :=
    { stamp := stamp, frame_id := s.odom_frame, child_frame_id := s.base_frame,
      px := s.pose.x, py := s.pose.y, pz := 0, orientation := odom_quat,
      linear := rates.1, angular := rates.2 }
  ({ s with odom := o }, [Effect.publishOdometry o])

/-- Modelled from the spec: `publishWheelState` (declared at header line 103,
body absent), the slot run on every wheel-state event.  It integrates the pose
(§4.3), rebuilds and publishes the joint states (§3), then hands the pose to
`publishTransform` and `publishOdom` (§2). -/
def publishWheelState (kin : Kinematics) (trig : Trig)
    (s : KobukiNode K) (last : Option WheelMemory) (ev : WheelState) :
    (KobukiNode K × Option WheelMemory) × List Effect :=
  let b := bodyDisplacement kin (displacement last ev)
  let rates := velocityEstimate last ev b
  let js : JointState :=
    { stamp := ev.stamp, name := [s.wheel_left_name, s.wheel_right_name],
      position := [ev.left, ev.right], velocity := [ev.left_rate, ev.right_rate] }
  let s1 : KobukiNode K := { s with pose := integrate trig s.pose b, joint_states := js }
  let odom_quat := headingQuaternion trig s1.pose.heading
  let r2 := publishTransform s1 odom_quat ev.stamp
  let r3 := publishOdom r2.1 odom_quat rates ev.stamp
  ((r3.1, some { stamp := ev.stamp, left := ev.left, right := ev.right }),
    Effect.publishJointState js :: (r2.2 ++ r3.2))

/-- A sequence of wheel-state events, delivered in firing order. -/
def wheelEvents (kin : Kinematics) (trig : Trig) (s : KobukiNode K) (last : Option WheelMemory) :
    List WheelState → (KobukiNode K × Option WheelMemory) × List Effect
  | [] => ((s, last), [])
  | ev :: evs =>
    let r := publishWheelState kin trig s last ev
    let r' := wheelEvents kin trig r.1.1 r.1.2 evs
    (r'.1, r.2 ++ r'.2)

/-! ## Concrete instances -/

/-- A driver state that counts the `run()` and `stop()` calls it receives. -/
def countingDriver : KobukiDriver (Nat × Nat) :=
  { run := fun k => (k.1 + 1, k.2), stop := fun k => (k.1, k.2 + 1) }

/-- A driver whose state is the single flag "is running". -/
def flagDriver : KobukiDriver Bool :=
  { run := fun _ => true, stop := fun _ => false }

/-- A node with the frame and joint names of the stock configuration. -/
def sampleNode {K : Type} (k : K) (tf : Bool) : KobukiNode K :=
  { kobuki := k
    name := "kobuki"
    odom_trans :=
      { stamp := 0, frame_id := "", child_frame_id := "", tx := 0, ty := 0, tz := 0,
        rotation := { x := 0, y := 0, z := 0, w := 1 } }
    odom :=
      { stamp := 0, frame_id := "", child_frame_id := "", px := 0, py := 0, pz := 0,
        orientation := { x := 0, y := 0, z := 0, w := 1 }, linear := 0, angular := 0 }
    pose := { x := 1, y := 2, heading := 0 }
    wheel_left_name := "wheel_left"
    wheel_right_name := "wheel_right"
    odom_frame := "odom"
    base_frame := "base_footprint"
    publish_tf := tf
    joint_states := { stamp := 0, name := [], position := [], velocity := [] } }

/-- Wheel radius 0.035 m and wheel separation 0.23 m. -/
def sampleKinematics : Kinematics :=
  { wheel_radius := 7 / 200, wheel_separation := 23 / 100 }

/-- A stand-in for libm: the first-order expansions at zero. -/
def sampleTrig : Trig :=
  { cos := fun _ => 1, sin := fun a => a }

/-! ## Frame lemmas -/

theorem step_pose (drv : KobukiDriver K) (s : KobukiNode K) (op : Op) :
    (step drv s op).1.pose = s.pose := by
  cases op <;> rfl

theorem step_names (drv : KobukiDriver K) (s : KobukiNode K) (op : Op) :
    (step drv s op).1.wheel_left_name = s.wheel_left_name ∧
      (step drv s op).1.wheel_right_name = s.wheel_right_name := by
  cases op <;> exact ⟨rfl, rfl⟩

theorem step_frames (drv : KobukiDriver K) (s : KobukiNode K) (op : Op) :
    (step drv s op).1.odom_frame = s.odom_frame ∧
      (step drv s op).1.base_frame = s.base_frame := by
  cases op <;> exact ⟨rfl, rfl⟩

theorem transformsSent_append (es fs : List Effect) :
    transformsSent (es ++ fs) = transformsSent es + transformsSent fs := by
  induction es with
  | nil => simp [transformsSent]
  | cons e es ih =>
    cases e <;> simp [transformsSent, ih]
    omega

theorem publishTransform_flag (s : KobukiNode K) (q : Quaternion) (stamp : ℚ) :
    (publishTransform s q stamp).1.publish_tf = s.publish_tf := by
  unfold publishTransform
  split <;> rfl

theorem publishTransform_off (s : KobukiNode K) (q : Quaternion) (stamp : ℚ)
    (h : s.publish_tf = false) : (publishTransform s q stamp).2 = [] := by
  simp [publishTransform, h]

theorem publishWheelState_flag (kin : Kinematics) (trig : Trig) (s : KobukiNode K)
    (last : Option WheelMemory) (ev : WheelState) :
    (publishWheelState kin trig s last ev).1.1.publish_tf = s.publish_tf := by
  simp only [publishWheelState, publishOdom]
  rw [publishTransform_flag]

theorem publishWheelState_off (kin : Kinematics) (trig : Trig) (s : KobukiNode K)
    (last : Option WheelMemory) (ev : WheelState) (h : s.publish_tf = false) :
    transformsSent (publishWheelState kin trig s last ev).2 = 0 := by
  simp only [publishWheelState, publishOdom]
  rw [publishTransform_off _ _ _ (by simpa using h)]
  simp [transformsSent]

/-! ## Command handlers -/

/-- Claim C1. For every node state and every message, `enable` performs exactly
one `kobuki.run()` and then writes exactly one info record, `disable` performs
exactly one `kobuki.stop()` and then writes exactly one info record, and
neither performs the other transition. -/
theorem enable_disable_one_call_one_log (drv : KobukiDriver K) (s : KobukiNode K)
    (msg : StringConstPtr) :
    ((enable drv s msg).2 = [Effect.run, Effect.log Level.info "kobuki enabled."] ∧
      countRun (enable drv s msg).2 = 1 ∧ countStop (enable drv s msg).2 = 0 ∧
      channel Level.info (enable drv s msg).2 = ["kobuki enabled."] ∧
      (enable drv s msg).1.kobuki = drv.run s.kobuki) ∧
    ((disable drv s msg).2 = [Effect.stop, Effect.log Level.info "kobuki disable."] ∧
      countStop (disable drv s msg).2 = 1 ∧ countRun (disable drv s msg).2 = 0 ∧
      channel Level.info (disable drv s msg).2 = ["kobuki disable."] ∧
      (disable drv s msg).1.kobuki = drv.stop s.kobuki) := by
  refine ⟨⟨rfl, ?_, ?_, ?_, rfl⟩, ⟨rfl, ?_, ?_, ?_, rfl⟩⟩ <;>
    simp [enable, disable, countRun, countStop, channel]

/-- Claim C2, as stated, fails: two `enable` calls in a row reach the driver as
two `run()` calls, not one; a driver that counts its calls ends at two. -/
theorem enable_twice_runs_twice :
    countRun (runOps countingDriver (sampleNode (0, 0) true)
        [Op.enable none, Op.enable none]).2 ≠ 1 ∧
      (runOps countingDriver (sampleNode (0, 0) true)
        [Op.enable none, Op.enable none]).1.kobuki = (2, 0) := by
  constructor
  · simp [runOps, step, enable, countRun]
  · rfl

/-- Claim C2, amended. For every node state, two `enable` calls in a row
perform two `kobuki.run()` calls and write two info records, alternating; the
driver state is `run` applied twice, so any idempotence is the driver's own. -/
theorem enable_twice_two_calls_two_logs (drv : KobukiDriver K) (s : KobukiNode K)
    (m₁ m₂ : StringConstPtr) :
    (runOps drv s [Op.enable m₁, Op.enable m₂]).2 =
        [Effect.run, Effect.log Level.info "kobuki enabled.",
         Effect.run, Effect.log Level.info "kobuki enabled."] ∧
      countRun (runOps drv s [Op.enable m₁, Op.enable m₂]).2 = 2 ∧
      channel Level.info (runOps drv s [Op.enable m₁, Op.enable m₂]).2 =
        ["kobuki enabled.", "kobuki enabled."] ∧
      (runOps drv s [Op.enable m₁, Op.enable m₂]).1.kobuki = drv.run (drv.run s.kobuki) := by
  refine ⟨rfl, ?_, ?_, rfl⟩ <;> simp [runOps, step, enable, countRun, channel]

/-- Claim C10. `enable` and `disable` do not read their message: any two
payloads, null or not, give the same driver call, the same log output and the
same resulting node, and the driver call is always made. -/
theorem enable_disable_ignore_message (drv : KobukiDriver K) (s : KobukiNode K)
    (m₁ m₂ : StringConstPtr) :
    enable drv s m₁ = enable drv s m₂ ∧ disable drv s m₁ = disable drv s m₂ ∧
      Effect.run ∈ (enable drv s m₁).2 ∧ Effect.stop ∈ (disable drv s m₁).2 := by
  refine ⟨rfl, rfl, ?_, ?_⟩ <;> simp [enable, disable]

/-! ## Log handlers -/

/-- Claim C3. For every text, each of `rosDebug`, `rosInfo`, `rosWarn`,
`rosError` writes exactly one record, on the channel of its own severity, with
the text unchanged, and nothing on the other three channels. -/
theorem log_handlers_own_channel (s : KobukiNode K) (msg : String) (l : Level) :
    (rosDebug s msg).2 = [Effect.log Level.debug msg] ∧
      (rosInfo s msg).2 = [Effect.log Level.info msg] ∧
      (rosWarn s msg).2 = [Effect.log Level.warn msg] ∧
      (rosError s msg).2 = [Effect.log Level.error msg] ∧
      channel l (rosDebug s msg).2 = (if l = Level.debug then [msg] else []) ∧
      channel l (rosInfo s msg).2 = (if l = Level.info then [msg] else []) ∧
      channel l (rosWarn s msg).2 = (if l = Level.warn then [msg] else []) ∧
      channel l (rosError s msg).2 = (if l = Level.error then [msg] else []) := by
  refine ⟨rfl, rfl, rfl, rfl, ?_, ?_, ?_, ?_⟩ <;>
    cases l <;> simp [rosDebug, rosInfo, rosWarn, rosError, channel]

/-! ## Frame properties -/

/-- Claim C4. Each of `enable`, `disable`, `rosDebug`, `rosInfo`, `rosWarn`,
`rosError` leaves the pose of the node unchanged. -/
theorem handlers_keep_pose (drv : KobukiDriver K) (s : KobukiNode K)
    (m : StringConstPtr) (msg : String) :
    (enable drv s m).1.pose = s.pose ∧ (disable drv s m).1.pose = s.pose ∧
      (rosDebug s msg).1.pose = s.pose ∧ (rosInfo s msg).1.pose = s.pose ∧
      (rosWarn s msg).1.pose = s.pose ∧ (rosError s msg).1.pose = s.pose :=
  ⟨rfl, rfl, rfl, rfl, rfl, rfl⟩

/-- Claim C5. In every state reached from a constructed node by any sequence
of member function calls, `wheel_left_name` and `wheel_right_name` have their
construction values.  The six handlers of the header are checked on their
code; the members declared without a body are any functions that obey the
`const` qualifier of the two fields. -/
theorem joint_names_constant {D : Type} (drv : KobukiDriver K)
    (body : D → KobukiNode K → KobukiNode K × List Effect) (hconst : RespectsConst body)
    (s : KobukiNode K) (cs : List (Call D)) :
    (runCalls drv body s cs).1.wheel_left_name = s.wheel_left_name ∧
      (runCalls drv body s cs).1.wheel_right_name = s.wheel_right_name := by
  induction cs generalizing s with
  | nil => exact ⟨rfl, rfl⟩
  | cons c cs ih =>
    have hc : (call drv body s c).1.wheel_left_name = s.wheel_left_name ∧
        (call drv body s c).1.wheel_right_name = s.wheel_right_name := by
      cases c with
      | defined op => exact step_names drv s op
      | declared d => exact hconst d s
    have h := ih (call drv body s c).1
    simp only [runCalls]
    exact ⟨h.1.trans hc.1, h.2.trans hc.2⟩

/-- Claim C6. In every state reached from the initialized node by any sequence
of `enable`, `disable` and log handler calls, `odom_frame` and `base_frame`
have the values they had at the end of `init()`. -/
theorem frames_immutable (drv : KobukiDriver K) (s : KobukiNode K) (ops : List Op) :
    (runOps drv s ops).1.odom_frame = s.odom_frame ∧
      (runOps drv s ops).1.base_frame = s.base_frame := by
  induction ops generalizing s with
  | nil => exact ⟨rfl, rfl⟩
  | cons op ops ih =>
    have hs := step_frames drv s op
    have h := ih (step drv s op).1
    simp only [runOps]
    exact ⟨h.1.trans hs.1, h.2.trans hs.2⟩

/-- The joint names survive `enable`, a `publishTransform` call and `rosWarn` on
the sample node, `publishTransform` standing for a member declared without a
body. -/
theorem joint_names_constant_witness :
    RespectsConst (fun (d : Quaternion × ℚ) (s : KobukiNode Bool) => publishTransform s d.1 d.2) ∧
      (runCalls flagDriver (fun (d : Quaternion × ℚ) s => publishTransform s d.1 d.2)
          (sampleNode false true)
          [Call.defined (Op.enable none), Call.declared ({ x := 0, y := 0, z := 0, w := 1 }, 5),
           Call.defined (Op.rosWarn "low battery")]).1.wheel_left_name = "wheel_left" ∧
      (runCalls flagDriver (fun (d : Quaternion × ℚ) s => publishTransform s d.1 d.2)
          (sampleNode false true)
          [Call.defined (Op.enable none), Call.declared ({ x := 0, y := 0, z := 0, w := 1 }, 5),
           Call.defined (Op.rosWarn "low battery")]).1.wheel_right_name = "wheel_right" :=
  have hconst : RespectsConst
      (fun (d : Quaternion × ℚ) (s : KobukiNode Bool) => publishTransform s d.1 d.2) := by
    intro d s
    simp only [publishTransform]
    split <;> exact ⟨rfl, rfl⟩
  ⟨hconst, joint_names_constant flagDriver _ hconst (sampleNode false true) _⟩

/-! ## Velocity command -/

/-- The wheel targets of §4.5 invert the displacement conversion of §4.3. -/
theorem bodyDisplacement_wheelTargets (kin : Kinematics) (v w : ℚ)
    (hr : kin.wheel_radius ≠ 0) (hb : kin.wheel_separation ≠ 0) :
    bodyDisplacement kin (wheelTargets kin v w) = (v, w) := by
  simp only [bodyDisplacement, wheelTargets, Prod.mk.injEq]
  constructor
  · field_simp
    ring
  · field_simp
    ring

/-- Claim C7. With a positive wheel radius and wheel separation, a velocity
command with angular part zero is forwarded as one actuation call with equal
left and right wheel targets, and a command with linear part zero and angular
part `w ≠ 0` as one actuation call whose targets have equal magnitude and
opposite sign, the right one being `w` times the wheel separation over twice
the wheel radius. -/
theorem velocity_command_wheel_targets (kin : Kinematics) (s : KobukiNode K) (v w : ℚ)
    (hr : 0 < kin.wheel_radius) (hb : 0 < kin.wheel_separation) (hw : w ≠ 0) :
    (subscribeVelocityCommand kin s (some { linear := v, angular := 0 })).2 =
        [Effect.actuate (v / kin.wheel_radius) (v / kin.wheel_radius)] ∧
      ∃ left right : ℚ,
        (subscribeVelocityCommand kin s (some { linear := 0, angular := w })).2 =
            [Effect.actuate left right] ∧
          left = -right ∧ |left| = |right| ∧ left * right < 0 ∧
          right = w * kin.wheel_separation / (2 * kin.wheel_radius) := by
  have hr0 : kin.wheel_radius ≠ 0 := ne_of_gt hr
  have hb0 : kin.wheel_separation ≠ 0 := ne_of_gt hb
  constructor
  · simp [subscribeVelocityCommand, wheelTargets]
  · refine ⟨(0 - w * kin.wheel_separation / 2) / kin.wheel_radius,
      (0 + w * kin.wheel_separation / 2) / kin.wheel_radius, rfl, ?_, ?_, ?_, ?_⟩
    · field_simp
    · have h : (0 - w * kin.wheel_separation / 2) / kin.wheel_radius =
          -((0 + w * kin.wheel_separation / 2) / kin.wheel_radius) := by field_simp
      rw [h, abs_neg]
    · have h : (0 - w * kin.wheel_separation / 2) / kin.wheel_radius *
          ((0 + w * kin.wheel_separation / 2) / kin.wheel_radius) =
          -((w * kin.wheel_separation / (2 * kin.wheel_radius)) ^ 2) := by
        field_simp
        ring
      rw [h]
      have hne : w * kin.wheel_separation / (2 * kin.wheel_radius) ≠ 0 :=
        div_ne_zero (mul_ne_zero hw hb0) (mul_ne_zero two_ne_zero hr0)
      have := pow_pos (abs_pos.mpr hne) 2
      rw [sq_abs] at this
      linarith
    · field_simp

/-- The wheel targets for the commands (0.5, 0) and (0, 1) with wheel radius
0.035 and wheel separation 0.23. -/
theorem velocity_command_wheel_targets_witness :
    (0 < sampleKinematics.wheel_radius ∧ 0 < sampleKinematics.wheel_separation ∧ (1 : ℚ) ≠ 0) ∧
      ((subscribeVelocityCommand sampleKinematics (sampleNode true true)
          (some { linear := 1 / 2, angular := 0 })).2 =
          [Effect.actuate ((1 / 2) / sampleKinematics.wheel_radius)
            ((1 / 2) / sampleKinematics.wheel_radius)] ∧
        ∃ left right : ℚ,
          (subscribeVelocityCommand sampleKinematics (sampleNode true true)
              (some { linear := 0, angular := 1 })).2 = [Effect.actuate left right] ∧
            left = -right ∧ |left| = |right| ∧ left * right < 0 ∧
            right = 1 * sampleKinematics.wheel_separation /
              (2 * sampleKinematics.wheel_radius)) :=
  ⟨⟨by norm_num [sampleKinematics], by norm_num [sampleKinematics], by norm_num⟩,
    velocity_command_wheel_targets sampleKinematics (sampleNode true true) (1 / 2) 1
      (by norm_num [sampleKinematics]) (by norm_num [sampleKinematics]) (by norm_num)⟩

/-! ## Initialization -/

/-- Claim C8. `init()` is guarded against re-entry: on a freshly constructed
node whose hardware opens the first call succeeds, and on every node, whatever
the first call returned, a second call returns failure. -/
theorem init_reentry_fails (g : InitGuard) (hw₁ hw₂ : Bool) :
    (init InitGuard.fresh true).1 = true ∧ (init (init g hw₁).2 hw₂).1 = false := by
  constructor
  · rfl
  · cases g with
    | mk phase called =>
      cases called <;> cases hw₁ <;> simp [init]

/-! ## Transform publishing -/

/-- With `publish_tf` on, every wheel-state event sends exactly one
transform. -/
theorem transforms_when_on (kin : Kinematics) (trig : Trig) (s : KobukiNode K)
    (last : Option WheelMemory) (evs : List WheelState) (h : s.publish_tf = true) :
    transformsSent (wheelEvents kin trig s last evs).2 = evs.length := by
  induction evs generalizing s last with
  | nil => rfl
  | cons ev evs ih =>
    have hflag := publishWheelState_flag kin trig s last ev
    have h1 : transformsSent (publishWheelState kin trig s last ev).2 = 1 := by
      simp [publishWheelState, publishOdom, publishTransform, h, transformsSent]
    simp only [wheelEvents, transformsSent_append, h1, List.length_cons]
    rw [ih _ _ (hflag.trans h)]
    omega

/-- Claim C9. With `publish_tf` false, for every sequence of wheel-state
events, however long, no transform is sent through the broadcaster. -/
theorem no_transform_when_off (kin : Kinematics) (trig : Trig) (s : KobukiNode K)
    (last : Option WheelMemory) (evs : List WheelState) (h : s.publish_tf = false) :
    transformsSent (wheelEvents kin trig s last evs).2 = 0 := by
  induction evs generalizing s last with
  | nil => rfl
  | cons ev evs ih =>
    have hflag := publishWheelState_flag kin trig s last ev
    simp only [wheelEvents, transformsSent_append,
      publishWheelState_off kin trig s last ev h]
    rw [ih _ _ (hflag.trans h)]

/-- Three wheel-state events on the sample node with `publish_tf` off send no
transform. -/
theorem no_transform_when_off_witness :
    (sampleNode false false).publish_tf = false ∧
      transformsSent (wheelEvents sampleKinematics sampleTrig (sampleNode false false) none
        [{ stamp := 1, left := 0, right := 0, left_rate := 0, right_rate := 0 },
         { stamp := 2, left := 1, right := 1, left_rate := 1, right_rate := 1 },
         { stamp := 3, left := 2, right := 3, left_rate := 1, right_rate := 2 }]).2 = 0 :=
  ⟨rfl, no_transform_when_off sampleKinematics sampleTrig (sampleNode false false) none _ rfl⟩

end kobuki
